import Mathlib

/-!
Shallow embedding of `flopy/modpath/mp6bas.py` (class `Modpath6Bas`):
layer-type / ibound attribute resolution and the MPBAS deck serialization
performed by `write_file`, together with the array serializers the deck
uses (`Util2d.string`, `Util3d.get_file_entry`), which live outside the
embedded source file and are therefore modelled from the spec where noted.

Python floats are modelled as rationals, Python ints as `Int`,
`None`-able arguments as `Option`, raised exceptions as `Except.error`.
-/

namespace Mp6Bas

/-- Decimal digit character, `digitChar k = '0' + k` for `k < 10`. -/
def digitChar (k : Nat) : Char := Char.ofNat (48 + k)

/-- Exactly `d` decimal digits of `n` (mod `10 ^ d`), most significant first. -/
def padDigits : Nat → Nat → List Char
  | 0, _ => []
  | d + 1, n => padDigits d (n / 10) ++ [digitChar (n % 10)]

/-- Right-justify `s` in a field of width `w` by left-padding with spaces,
as Python `format(s, ">w")` / `f"{x:wd}"` does. -/
def padLeftW (w : Nat) (s : String) : String :=
  String.mk (List.replicate (w - s.length) ' ') ++ s

/-- Left-justify `s` in a field of width `w` by right-padding with spaces,
as Python `f"{s:ws}"` does. -/
def padRightW (w : Nat) (s : String) : String :=
  s ++ String.mk (List.replicate (w - s.length) ' ')

/-- Fixed-point decimal rendering of a rational with exactly `d` fractional
digits, the model of Python `f"{x:.df}"` (no field width). -/
def decFixed (q : ℚ) (d : Nat) : String :=
  let n : Int := round (q * (10 : ℚ) ^ d)
  let a : Nat := n.natAbs
  (if n < 0 then "-" else "") ++ toString (a / 10 ^ d) ++ "." ++
    String.mk (padDigits d (a % 10 ^ d))

/-- Model of Python `f"{x:w.df}"`: fixed-point value right-justified in a
`w`-character field. -/
def pyFloatFmt (q : ℚ) (w d : Nat) : String := padLeftW w (decFixed q d)

/-- Model of Python `f"{n:wd}"`: integer right-justified in a `w`-character
field. -/
def pyIntFmt (n : Int) (w : Nat) : String := padLeftW w (toString n)

/-- Model of Python `f"{s:ws}"`: string left-justified in a `w`-character
field. -/
def pyStrFmt (s : String) (w : Nat) : String := padRightW w s

/-- Split a list into consecutive chunks of at most `n` elements
(`n ≥ 1` at every call site; a chunk is never empty). -/
def chunksOf (n : Nat) : List α → List (List α)
  | [] => []
  | x :: xs => (x :: List.take (n - 1) xs) :: chunksOf n (List.drop (n - 1) xs)
termination_by l => l.length
decreasing_by
  simp only [List.length_drop, List.length_cons]
  omega

/-- `self.heading1`, set in `__init__` and never changed. -/
def heading1 : String := "# MPBAS for Modpath, generated by Flopy."

/-- `self.heading2`, set in `__init__` and never changed. -/
def heading2 : String := "#"

/-- The parent MODFLOW model as `Modpath6Bas` observes it: for each flow
package kind, `some laycon/laytyp-values` when the package is present and
`none` when `get_package` returns `None`; likewise the BAS6 package with its
`ibound` array. -/
structure MfModel where
  bcf6 : Option (List Int)
  lpf : Option (List Int)
  upw : Option (List Int)
  bas6 : Option (List (List (List Int)))
deriving Repr, DecidableEq

/-- `Modpath6Bas._create_ltype`: resolve the per-layer layer-type values.
`mf` is `self.parent.getmf()`; `laytyp` is the user-passed argument. The
`Util2d` wrap keeps the resolved values, so the model returns them directly;
a raised `ValueError` / failed `assert` becomes `Except.error` carrying the
source message. -/
def create_ltype (mf : Option MfModel) (laytyp : Option (List Int)) :
    Except String (List Int) :=
  match laytyp with
  | some v => Except.ok v
  | none =>
    match mf with
    | none => Except.error "if modflowmodel is None then laytype must be passed"
    | some m =>
      let s1 : Option (List Int) × Bool :=
        match m.bcf6 with
        | some v => (some v, true)
        | none => (none, false)
      let s2 : Option (List Int) × Bool :=
        match m.lpf with
        | some v => if s1.2 then s1 else (some v, true)
        | none => s1
      let s3 : Option (List Int) :=
        match m.upw with
        | some v => if s2.2 then some v else s2.1
        | none => s2.1
      match s3 with
      | some v => Except.ok v
      | none => Except.error "could not determine laytype"

/-- The `ibound` branch of `Modpath6Bas.__init__` (lines 94-105): when no
explicit array is passed, pull it from the parent MODFLOW model's BAS6
package, raising when the model or the package is missing. -/
def resolve_ibound (mf : Option MfModel)
    (ibound : Option (List (List (List Int)))) :
    Except String (List (List (List Int))) :=
  match ibound with
  | some v => Except.ok v
  | none =>
    match mf with
    | none =>
      Except.error "either ibound must be passed or modflowmodel must not be None"
    | some m =>
      match m.bas6 with
      | some arr => Except.ok arr
      | none => Except.error "could not get bas6 package from modflow"

/-- Modelled from the spec: the per-layer constant test of the structured
array serializer (`Util3d`) — `some v` when every value of the layer equals
`v` (and the layer is non-empty), `none` otherwise. -/
def layerConstVal [DecidableEq α] (layer : List (List α)) : Option α :=
  match layer.flatten with
  | [] => none
  | v :: rest => if rest.all (fun x => decide (x = v)) then some v else none

/-- Modelled from the spec: per-layer block of the structured array
serializer (`Util3d.get_file_entry`). An all-identical layer emits a single
constant-mode control line carrying the shared value and no data lines;
otherwise a read-array control line followed by the layer's row-major values,
`cpl` per line, each formatted by `fmtD`. -/
def serializeLayer [DecidableEq α] (fmtC fmtD : α → String) (cpl : Nat)
    (name : String) (layer : List (List α)) : List String :=
  match layerConstVal layer with
  | some v => ["CONSTANT " ++ fmtC v ++ "   #" ++ name]
  | none =>
    ("READARRAY INTERNAL   #" ++ name) ::
      (chunksOf cpl layer.flatten).map (fun c => String.join (c.map fmtD))

/-- Modelled from the spec: `Util3d.get_file_entry`, one control/header block
per layer, concatenated in layer order. -/
def u3dEntry [DecidableEq α] (fmtC fmtD : α → String) (cpl : Nat)
    (name : String) (arr : List (List (List α))) : List String :=
  arr.flatMap (serializeLayer fmtC fmtD cpl name)

/-- Modelled from the spec: integer-kind 3-D array entry (ibound preset:
width-10 right-justified integers, 20 per line). -/
def u3dIntEntry (name : String) (arr : List (List (List Int))) : List String :=
  u3dEntry toString (fun v => pyIntFmt v 10) 20 name arr

/-- Modelled from the spec: real-kind 3-D array entry (porosity preset:
width-16 fixed-point with 6 decimals, 5 per line). -/
def u3dRealEntry (name : String) (arr : List (List (List ℚ))) : List String :=
  u3dEntry (fun q => decFixed q 6) (fun q => pyFloatFmt q 16 6) 5 name arr

/-- Modelled from the spec: the 1-D control line of `Util2d.string` after
`set_fmtin("(40I2)")` — one line naming the array and declaring the
width-2 / 40-per-line integer preset. -/
def util2dControlLine (name : String) (w cpl : Nat) : String :=
  "INTERNAL (" ++ toString cpl ++ "I" ++ toString w ++ ")   #" ++ name

/-- Modelled from the spec: `Util2d.string` for a 1-D integer array with
format `(cpl I w)`: the control line, then the values at width `w`,
wrapped to `cpl` values per line, the trailing partial line ending early. -/
def util2dString (name : String) (vals : List Int) (w cpl : Nat) :
    List String :=
  util2dControlLine name w cpl ::
    (chunksOf cpl vals).map (fun c => String.join (c.map (fun v => pyIntFmt v w)))

/-- The attributes of a constructed `Modpath6Bas` instance that `write_file`
reads. `laytyp` is the already-resolved per-layer array (`self.laytyp` holds
`_create_ltype`'s result); `bud_label` / `def_iface` keep their possibly-`None`
constructor defaults, which `write_file` subscripts without checking. -/
structure BasConfig where
  hnoflo : ℚ
  hdry : ℚ
  def_face_ct : Int
  bud_label : Option (List String)
  def_iface : Option (List Int)
  laytyp : List Int
  ibound : List (List (List Int))
  prsity : List (List (List ℚ))
  prsityCB : List (List (List ℚ))

/-- One observable action of `write_file` on its output handle: `open`, a
`f_bas.write(...)` call carrying the lines it appends, or `close`. -/
inductive FEvent where
  | openF : FEvent
  | writeF : List String → FEvent
  | closeF : FEvent
deriving Repr, DecidableEq

/-- The text lines a sequence of handle events appends to the file. -/
def linesOf : List FEvent → List String
  | [] => []
  | FEvent.openF :: r => linesOf r
  | FEvent.writeF ls :: r => ls ++ linesOf r
  | FEvent.closeF :: r => linesOf r

/-- The `for i in range(def_face_ct)` loop of `write_file` (lines 151-153),
iterating `i = i, i+1, ...` for `n` steps: each step writes
`f"{bud_label[i]:20s}"` then `f"{def_iface[i]:2d}"`. Subscripting `None` or
an out-of-range index raises, cutting the run short: the second component is
`false` and only the events before the raise are emitted. -/
def faceEventsGo (labels : Option (List String)) (ifaces : Option (List Int)) :
    Nat → Nat → List FEvent × Bool
  | _, 0 => ([], true)
  | i, n + 1 =>
    match labels with
    | none => ([], false)
    | some ls =>
      match ls.get? i with
      | none => ([], false)
      | some lab =>
        match ifaces with
        | none => ([FEvent.writeF [pyStrFmt lab 20]], false)
        | some fs =>
          match fs.get? i with
          | none => ([FEvent.writeF [pyStrFmt lab 20]], false)
          | some f =>
            let rest := faceEventsGo labels ifaces (i + 1) n
            (FEvent.writeF [pyStrFmt lab 20] ::
              FEvent.writeF [pyIntFmt f 2] :: rest.1, rest.2)

/-- `Modpath6Bas.write_file` as the sequence of handle events it performs:
open; write the two heading lines (one call); the hnoflo/hdry sentinel line;
the face-default count line; the face loop when the count is positive; then
the laytyp block (after `set_fmtin("(40I2)")`), the ibound, prsity and
prsityCB entries; close. A raise inside the face loop ends the run with no
further events — in particular with no `close`. -/
def writeFileRun (cfg : BasConfig) : List FEvent × Bool :=
  let pre : List FEvent :=
    [FEvent.openF,
     FEvent.writeF ["#" ++ heading1, "#" ++ heading2],
     FEvent.writeF [pyFloatFmt cfg.hnoflo 16 6 ++ " " ++ pyFloatFmt cfg.hdry 16 6],
     FEvent.writeF [pyIntFmt cfg.def_face_ct 4]]
  let face : List FEvent × Bool :=
    if cfg.def_face_ct > 0 then
      faceEventsGo cfg.bud_label cfg.def_iface 0 cfg.def_face_ct.toNat
    else ([], true)
  if face.2 then
    (pre ++ face.1 ++
      [FEvent.writeF (util2dString "bas - laytype" cfg.laytyp 2 40),
       FEvent.writeF (u3dIntEntry "ibound" cfg.ibound),
       FEvent.writeF (u3dRealEntry "prsity" cfg.prsity),
       FEvent.writeF (u3dRealEntry "prsityCB" cfg.prsityCB),
       FEvent.closeF], true)
  else (pre ++ face.1, false)

/-- `Modpath6Bas.write_file` as a deck producer: the lines written on a
successful run, or an error when the face-default loop raises. -/
def write_file (cfg : BasConfig) : Except String (List String) :=
  match writeFileRun cfg with
  | (tr, true) => Except.ok (linesOf tr)
  | (_, false) => Except.error "exception while formatting the face-default block"

/-- The laytyp attribute pipeline: resolve (`_create_ltype`), then serialize
the resolved per-layer values the way `write_file` does
(`set_fmtin("(40I2)")` followed by `f_bas.write(lc.string)`). -/
def resolveAndEmitLaytyp (mf : Option MfModel) (laytyp : Option (List Int)) :
    Except String (List String) :=
  (create_ltype mf laytyp).map (fun v => util2dString "bas - laytype" v 2 40)

/-- Step 1 of the deck: the two heading comment lines. -/
def specHeadingLines : List String := ["#" ++ heading1, "#" ++ heading2]

/-- Step 2 of the deck: the hnoflo/hdry sentinel pair on one line. -/
def specSentinelLine (cfg : BasConfig) : String :=
  pyFloatFmt cfg.hnoflo 16 6 ++ " " ++ pyFloatFmt cfg.hdry 16 6

/-- Step 3a of the deck: the face-default count line. -/
def specCountLine (cfg : BasConfig) : String := pyIntFmt cfg.def_face_ct 4

/-- Step 3b of the deck: the optional face-default block — `count`
repetitions of (label line, iface line), absent when the count is not
positive. -/
def specFaceBlock (cfg : BasConfig) : List String :=
  if 0 < cfg.def_face_ct then
    (List.range cfg.def_face_ct.toNat).flatMap (fun i =>
      [pyStrFmt ((cfg.bud_label.getD []).getD i "") 20,
       pyIntFmt ((cfg.def_iface.getD []).getD i 0) 2])
  else []

/-- Step 4 of the deck: the serialized layer-type array. -/
def specLaytypBlock (cfg : BasConfig) : List String :=
  util2dString "bas - laytype" cfg.laytyp 2 40

/-- The whole deck in the order of §4.3 of the spec: headings, sentinel
line, count line, optional face block, layer-type array, ibound array,
porosity array, confining-bed porosity array. -/
def specDeck (cfg : BasConfig) : List String :=
  specHeadingLines ++ [specSentinelLine cfg] ++ [specCountLine cfg] ++
    specFaceBlock cfg ++ specLaytypBlock cfg ++
    u3dIntEntry "ibound" cfg.ibound ++
    u3dRealEntry "prsity" cfg.prsity ++
    u3dRealEntry "prsityCB" cfg.prsityCB

/-- The face-default configuration is consistent: whenever the count is
positive, `bud_label` and `def_iface` are lists with at least `count`
entries, so the loop of `write_file` cannot raise. -/
def faceOk (cfg : BasConfig) : Prop :=
  0 < cfg.def_face_ct →
    ∃ ls fs, cfg.bud_label = some ls ∧ cfg.def_iface = some fs ∧
      cfg.def_face_ct.toNat ≤ ls.length ∧ cfg.def_face_ct.toNat ≤ fs.length

/-- Parent model with BCF6 and LPF present (values [7] and [8]) and UPW
absent. -/
def mfAB : MfModel := ⟨some [7], some [8], none, none⟩

/-- A small configuration with no face defaults, the §8 concrete scenario:
two layers, 1×2 grid, ibound [[1,1]],[[0,0]], porosity 0.30 everywhere. -/
def cfgW : BasConfig :=
  ⟨-9999, -8888, 0, none, none, [0, 1], [[[1, 1]], [[0, 0]]],
   [[[3/10], [3/10]], [[3/10], [3/10]]], [[[3/10], [3/10]], [[3/10], [3/10]]]⟩

/-- A configuration whose `write_file` raises: `def_face_ct = 1` with the
constructor-default `bud_label = None`. -/
def cfgFail : BasConfig := ⟨-9999, -8888, 1, none, none, [0], [], [], []⟩

/-- A configuration with a well-formed two-entry face-default block. -/
def cfgFace : BasConfig :=
  ⟨-9999, -8888, 2, some ["RECHARGE", "WELLS"], some [6, 6], [0, 1],
   [[[1, 1]], [[0, 0]]], [[[3/10], [3/10]], [[3/10], [3/10]]],
   [[[3/10], [3/10]], [[3/10], [3/10]]]⟩

theorem linesOf_append (a b : List FEvent) :
    linesOf (a ++ b) = linesOf a ++ linesOf b := by
  induction a with
  | nil => rfl
  | cons e r ih => cases e <;> simp [linesOf, ih]

theorem linesOf_map_single (ls : List String) :
    linesOf (ls.map (fun l => FEvent.writeF [l])) = ls := by
  induction ls with
  | nil => rfl
  | cons l r ih => simp [linesOf, ih]

theorem faceEventsGo_no_close (labels : Option (List String))
    (ifaces : Option (List Int)) :
    ∀ (n i : Nat), FEvent.closeF ∉ (faceEventsGo labels ifaces i n).1 := by
  intro n
  induction n with
  | zero => intro i; simp [faceEventsGo]
  | succ n ih =>
    intro i
    cases labels with
    | none => simp [faceEventsGo]
    | some ls =>
      cases hg : ls.get? i with
      | none => simp only [faceEventsGo, hg]; simp
      | some lab =>
        cases ifaces with
        | none => simp only [faceEventsGo, hg]; simp
        | some fs =>
          cases hf : fs.get? i with
          | none => simp only [faceEventsGo, hg, hf]; simp
          | some f =>
            simp only [faceEventsGo, hg, hf, List.mem_cons, not_or]
            exact ⟨by simp, by simp, ih (i + 1)⟩

theorem faceEventsGo_ok (ls : List String) (fs : List Int) :
    ∀ (n i : Nat), i + n ≤ ls.length → i + n ≤ fs.length →
      faceEventsGo (some ls) (some fs) i n =
        ((List.range' i n).flatMap (fun j =>
          [FEvent.writeF [pyStrFmt (ls.getD j "") 20],
           FEvent.writeF [pyIntFmt (fs.getD j 0) 2]]), true) := by
  intro n
  induction n with
  | zero => intro i _ _; simp [faceEventsGo]
  | succ n ih =>
    intro i hls hfs
    have hi : i < ls.length := by omega
    have hi2 : i < fs.length := by omega
    have hg : ls.get? i = some (ls.getD i "") := by
      simp [List.get?_eq_getElem?, List.getElem?_eq_getElem hi]
    have hf : fs.get? i = some (fs.getD i 0) := by
      simp [List.get?_eq_getElem?, List.getElem?_eq_getElem hi2]
    have hrec := ih (i + 1) (by omega) (by omega)
    simp only [faceEventsGo, hg, hf, hrec, List.range'_succ, List.flatMap_cons]
    rfl

theorem writeFileRun_ok (cfg : BasConfig) (h : faceOk cfg) :
    writeFileRun cfg =
      ([FEvent.openF,
        FEvent.writeF ["#" ++ heading1, "#" ++ heading2],
        FEvent.writeF [specSentinelLine cfg],
        FEvent.writeF [specCountLine cfg]] ++
       (specFaceBlock cfg).map (fun l => FEvent.writeF [l]) ++
       [FEvent.writeF (specLaytypBlock cfg),
        FEvent.writeF (u3dIntEntry "ibound" cfg.ibound),
        FEvent.writeF (u3dRealEntry "prsity" cfg.prsity),
        FEvent.writeF (u3dRealEntry "prsityCB" cfg.prsityCB),
        FEvent.closeF], true) := by
  by_cases hct : 0 < cfg.def_face_ct
  · obtain ⟨ls, fs, hbl, hdf, h1, h2⟩ := h hct
    have hface := faceEventsGo_ok ls fs cfg.def_face_ct.toNat 0
      (by omega) (by omega)
    simp only [writeFileRun, hbl, hdf, hct, if_pos, hface,
      specFaceBlock, specSentinelLine, specCountLine, specLaytypBlock,
      Option.getD_some, List.range_eq_range', List.map_flatMap]
    rfl
  · simp only [writeFileRun, hct, if_neg, specFaceBlock,
      specSentinelLine, specCountLine, specLaytypBlock, if_false]
    simp [hct]

theorem write_file_eq_specDeck (cfg : BasConfig) (h : faceOk cfg) :
    write_file cfg = Except.ok (specDeck cfg) := by
  rw [write_file, writeFileRun_ok cfg h]
  simp [linesOf_append, linesOf_map_single, linesOf, specDeck,
    specHeadingLines, List.append_assoc]

theorem padDigits_length : ∀ (d n : Nat), (padDigits d n).length = d := by
  intro d
  induction d with
  | zero => intro n; rfl
  | succ d ih => intro n; simp [padDigits, ih]

theorem digitChar_isDigit (k : Nat) (hk : k < 10) :
    (digitChar k).isDigit = true := by
  interval_cases k <;> decide

theorem padDigits_isDigit :
    ∀ (d n : Nat), ∀ c ∈ padDigits d n, c.isDigit = true := by
  intro d
  induction d with
  | zero => intro n c hc; cases hc
  | succ d ih =>
    intro n c hc
    rcases List.mem_append.mp hc with h | h
    · exact ih (n / 10) c h
    · rcases List.mem_singleton.mp h with rfl
      exact digitChar_isDigit (n % 10) (Nat.mod_lt n (by omega))

theorem padLeftW_length (w : Nat) (s : String) :
    (padLeftW w s).length = max w s.length := by
  simp [padLeftW]
  omega

theorem padRightW_length (w : Nat) (s : String) :
    (padRightW w s).length = max w s.length := by
  simp [padRightW]
  omega

theorem decFixed_decimals (q : ℚ) (d : Nat) :
    ∃ ip ds, decFixed q d = ip ++ "." ++ String.mk ds ∧ ds.length = d ∧
      ∀ c ∈ ds, c.isDigit = true := by
  refine ⟨(if round (q * (10 : ℚ) ^ d) < 0 then "-" else "") ++
      toString ((round (q * (10 : ℚ) ^ d)).natAbs / 10 ^ d),
    padDigits d ((round (q * (10 : ℚ) ^ d)).natAbs % 10 ^ d),
    ?_, padDigits_length d _, padDigits_isDigit d _⟩
  simp [decFixed, String.append_assoc]

theorem chunksOf_length_le_aux (n : Nat) (hn : 1 ≤ n) :
    ∀ (k : Nat) (l : List α), l.length ≤ k →
      ∀ c ∈ chunksOf n l, c.length ≤ n := by
  intro k
  induction k with
  | zero =>
    intro l hl c hc
    cases l with
    | nil => simp [chunksOf] at hc
    | cons x xs => simp at hl
  | succ k ih =>
    intro l hl c hc
    cases l with
    | nil => simp [chunksOf] at hc
    | cons x xs =>
      rw [chunksOf] at hc
      rcases List.mem_cons.mp hc with rfl | h
      · simp only [List.length_cons, List.length_take]
        omega
      · refine ih (xs.drop (n - 1)) ?_ c h
        simp only [List.length_drop, List.length_cons] at hl ⊢
        omega

theorem chunksOf_length_le (n : Nat) (hn : 1 ≤ n) (l : List α) :
    ∀ c ∈ chunksOf n l, c.length ≤ n :=
  chunksOf_length_le_aux n hn l.length l (Nat.le_refl _)

theorem chunksOf_ne_nil (n : Nat) (l : List α) (h : l ≠ []) :
    chunksOf n l ≠ [] := by
  cases l with
  | nil => exact absurd rfl h
  | cons x xs => rw [chunksOf]; exact List.cons_ne_nil _ _

theorem layerConstVal_all_eq [DecidableEq α] (layer : List (List α)) (v : α)
    (hne : layer.flatten ≠ []) (hall : ∀ x ∈ layer.flatten, x = v) :
    layerConstVal layer = some v := by
  unfold layerConstVal
  cases hfl : layer.flatten with
  | nil => exact absurd hfl hne
  | cons w rest =>
    have hw : w = v := hall w (by rw [hfl]; exact List.mem_cons_self _ _)
    have hrest : rest.all (fun x => decide (x = w)) = true := by
      rw [List.all_eq_true]
      intro x hx
      have hxv : x = v := hall x (by rw [hfl]; exact List.mem_cons_of_mem _ hx)
      simp [hxv, hw]
    show (if (rest.all fun x => decide (x = w)) = true then some w
      else none) = some v
    rw [if_pos hrest]
    exact congrArg some hw

theorem layerConstVal_two_ne [DecidableEq α] (layer : List (List α)) (x y : α)
    (hx : x ∈ layer.flatten) (hy : y ∈ layer.flatten) (hxy : x ≠ y) :
    layerConstVal layer = none := by
  unfold layerConstVal
  cases hfl : layer.flatten with
  | nil => exact absurd (hfl ▸ hx) (List.not_mem_nil x)
  | cons w rest =>
    rw [hfl] at hx hy
    have hnall : ¬rest.all (fun z => decide (z = w)) = true := by
      intro hall
      have hxw : x = w := by
        rcases List.mem_cons.mp hx with h | h
        · exact h
        · exact of_decide_eq_true (List.all_eq_true.mp hall x h)
      have hyw : y = w := by
        rcases List.mem_cons.mp hy with h | h
        · exact h
        · exact of_decide_eq_true (List.all_eq_true.mp hall y h)
      exact hxy (hxw.trans hyw.symm)
    simp [hnall]

/-- C1: with no explicit laytyp, if only BCF6 (kind A) exposes the layer-type
attribute the resolver returns A's value; and if BCF6 and UPW (kind C) are
both present while LPF (kind B) is absent, the later-found UPW value
overwrites the BCF6 match and the resolver returns C's value. -/
theorem create_ltype_A_then_C_overwrites (m : MfModel) (a c : List Int) :
    (m.bcf6 = some a → m.lpf = none → m.upw = none →
      create_ltype (some m) none = Except.ok a) ∧
    (m.bcf6 = some a → m.lpf = none → m.upw = some c →
      create_ltype (some m) none = Except.ok c) := by
  constructor <;> intro h1 h2 h3 <;> simp [create_ltype, h1, h2, h3]

theorem create_ltype_A_then_C_overwrites_witness :
    create_ltype (some ⟨some [7], none, none, none⟩) none = Except.ok [7] ∧
    create_ltype (some ⟨some [7], none, some [9], none⟩) none =
      Except.ok [9] :=
  ⟨(create_ltype_A_then_C_overwrites ⟨some [7], none, none, none⟩ [7] [9]).1
      rfl rfl rfl,
   (create_ltype_A_then_C_overwrites ⟨some [7], none, some [9], none⟩
      [7] [9]).2 rfl rfl rfl⟩

/-- C2 counterexample: with BCF6 (value [7]) and LPF (value [8]) both present
and UPW absent, the resolver returns BCF6's value [7], not LPF's value [8]
as the claim requires — the LPF branch is skipped because BCF6 already set
`have_layertype`. -/
theorem create_ltype_B_never_wins_when_A_present :
    mfAB.bcf6 = some [7] ∧ mfAB.lpf = some [8] ∧ mfAB.upw = none ∧
    create_ltype (some mfAB) none = Except.ok [7] ∧
    create_ltype (some mfAB) none ≠ Except.ok [8] := by
  refine ⟨rfl, rfl, rfl, rfl, ?_⟩
  simp [create_ltype, mfAB]

/-- C2 (amended): when BCF6 (kind A) is present, LPF's (kind B's) value is
skipped entirely: the resolver returns A's value if UPW (kind C) is absent
and C's value if C is present; B's value is selected only when A is absent,
and even then a present C overwrites it. -/
theorem create_ltype_B_skipped_when_A_present (m : MfModel) (b : List Int) :
    (∀ a, m.bcf6 = some a → m.lpf = some b → m.upw = none →
      create_ltype (some m) none = Except.ok a) ∧
    (∀ a c, m.bcf6 = some a → m.lpf = some b → m.upw = some c →
      create_ltype (some m) none = Except.ok c) ∧
    (∀ c, m.bcf6 = none → m.lpf = some b → m.upw = some c →
      create_ltype (some m) none = Except.ok c) := by
  refine ⟨?_, ?_, ?_⟩
  · intro a h1 h2 h3; simp [create_ltype, h1, h2, h3]
  · intro a c h1 h2 h3; simp [create_ltype, h1, h2, h3]
  · intro c h1 h2 h3; simp [create_ltype, h1, h2, h3]

theorem create_ltype_B_skipped_when_A_present_witness :
    create_ltype (some ⟨some [7], some [8], none, none⟩) none =
      Except.ok [7] ∧
    create_ltype (some ⟨some [7], some [8], some [9], none⟩) none =
      Except.ok [9] ∧
    create_ltype (some ⟨none, some [8], some [9], none⟩) none =
      Except.ok [9] :=
  ⟨(create_ltype_B_skipped_when_A_present ⟨some [7], some [8], none, none⟩
      [8]).1 [7] rfl rfl rfl,
   (create_ltype_B_skipped_when_A_present ⟨some [7], some [8], some [9], none⟩
      [8]).2.1 [7] [9] rfl rfl rfl,
   (create_ltype_B_skipped_when_A_present ⟨none, some [8], some [9], none⟩
      [8]).2.2 [9] rfl rfl rfl⟩

/-- C6: with an explicit laytyp value the resolver wraps it directly — it
succeeds with exactly that value for every sibling configuration, including
a missing modflow model, and the serialized laytyp block of the pipeline is
likewise identical across configurations. -/
theorem create_ltype_explicit_bypass (mf mf2 : Option MfModel)
    (v : List Int) :
    create_ltype mf (some v) = Except.ok v ∧
    create_ltype mf (some v) = create_ltype mf2 (some v) ∧
    resolveAndEmitLaytyp mf (some v) = resolveAndEmitLaytyp mf2 (some v) := by
  refine ⟨rfl, rfl, rfl⟩

/-- C7: with no explicit ibound, resolution consults exactly the BAS6
package of the parent modflow model: a missing model raises, a missing BAS6
package raises, and otherwise BAS6's ibound array is returned. -/
theorem resolve_ibound_from_bas6 (m : MfModel)
    (arr : List (List (List Int))) :
    (resolve_ibound none none =
      Except.error
        "either ibound must be passed or modflowmodel must not be None") ∧
    (m.bas6 = none → resolve_ibound (some m) none =
      Except.error "could not get bas6 package from modflow") ∧
    (m.bas6 = some arr → resolve_ibound (some m) none = Except.ok arr) := by
  refine ⟨rfl, ?_, ?_⟩ <;> intro h <;> simp [resolve_ibound, h]

theorem resolve_ibound_from_bas6_witness :
    resolve_ibound (some ⟨none, none, none, none⟩) none =
      Except.error "could not get bas6 package from modflow" ∧
    resolve_ibound (some ⟨none, none, none, some [[[1]]]⟩) none =
      Except.ok [[[1]]] :=
  ⟨(resolve_ibound_from_bas6 ⟨none, none, none, none⟩ [[[1]]]).2.1 rfl,
   (resolve_ibound_from_bas6 ⟨none, none, none, some [[[1]]]⟩ [[[1]]]).2.2
      rfl⟩

/-- C8: with no explicit laytyp and no flow package (BCF6, LPF, UPW all
absent) the resolver raises — it returns no default value — and the error
message names the offending attribute, `laytype`. -/
theorem create_ltype_missing_fails (m : MfModel) (h1 : m.bcf6 = none)
    (h2 : m.lpf = none) (h3 : m.upw = none) :
    create_ltype (some m) none =
      Except.error ("could not determine " ++ "laytype") ∧
    ∀ v, create_ltype (some m) none ≠ Except.ok v := by
  constructor
  · have hs : ("could not determine " ++ "laytype" : String) =
        "could not determine laytype" := rfl
    rw [hs]
    simp [create_ltype, h1, h2, h3]
  · intro v h
    simp [create_ltype, h1, h2, h3] at h

theorem create_ltype_missing_fails_witness :
    create_ltype (some ⟨none, none, none, none⟩) none =
      Except.error ("could not determine " ++ "laytype") ∧
    create_ltype (some ⟨none, none, none, none⟩) none ≠ Except.ok [0] :=
  ⟨(create_ltype_missing_fails ⟨none, none, none, none⟩ rfl rfl rfl).1,
   (create_ltype_missing_fails ⟨none, none, none, none⟩ rfl rfl rfl).2 [0]⟩

/-- C10: with no explicit laytyp, a present modflow model, and UPW the only
flow package present (BCF6 and LPF absent), resolution still fails with the
assertion message "could not determine laytype": the UPW branch applies only
after an earlier kind has already supplied a value. -/
theorem create_ltype_upw_alone_fails (m : MfModel) (c : List Int)
    (h1 : m.bcf6 = none) (h2 : m.lpf = none) (h3 : m.upw = some c) :
    create_ltype (some m) none =
      Except.error "could not determine laytype" := by
  simp [create_ltype, h1, h2, h3]

theorem create_ltype_upw_alone_fails_witness :
    create_ltype (some ⟨none, none, some [9], none⟩) none =
      Except.error "could not determine laytype" :=
  create_ltype_upw_alone_fails ⟨none, none, some [9], none⟩ [9] rfl rfl rfl

/-- C3: `write_file` emits records in exactly this order: two heading
comment lines, the hnoflo/hdry sentinel line, the face-default count line,
then only when the count is positive the face block of `count` repetitions of
(label line, iface line) — the block entirely absent with no blank line at
count zero — then the layer-type array, the ibound array, the porosity array
and the confining-bed porosity array. -/
theorem write_file_record_order (cfg : BasConfig) (h : faceOk cfg) :
    write_file cfg = Except.ok
      (specHeadingLines ++ [specSentinelLine cfg] ++ [specCountLine cfg] ++
       specFaceBlock cfg ++ specLaytypBlock cfg ++
       u3dIntEntry "ibound" cfg.ibound ++
       u3dRealEntry "prsity" cfg.prsity ++
       u3dRealEntry "prsityCB" cfg.prsityCB) ∧
    (cfg.def_face_ct = 0 → specFaceBlock cfg = []) ∧
    (0 < cfg.def_face_ct →
      (specFaceBlock cfg).length = 2 * cfg.def_face_ct.toNat) := by
  refine ⟨write_file_eq_specDeck cfg h, ?_, ?_⟩
  · intro h0
    simp [specFaceBlock, h0]
  · intro hpos
    simp only [specFaceBlock, if_pos hpos, List.length_flatMap]
    simp only [Function.comp_def, List.length_cons, List.length_nil]
    simp only [List.map_const', List.length_range, List.sum_replicate,
      smul_eq_mul]
    omega

theorem write_file_record_order_witness :
    write_file cfgFace = Except.ok
      (specHeadingLines ++ [specSentinelLine cfgFace] ++
       [specCountLine cfgFace] ++ specFaceBlock cfgFace ++
       specLaytypBlock cfgFace ++ u3dIntEntry "ibound" cfgFace.ibound ++
       u3dRealEntry "prsity" cfgFace.prsity ++
       u3dRealEntry "prsityCB" cfgFace.prsityCB) ∧
    (specFaceBlock cfgFace).length = 2 * (2 : Int).toNat ∧
    specFaceBlock cfgW = [] := by
  have hok : faceOk cfgFace := fun _ =>
    ⟨["RECHARGE", "WELLS"], [6, 6], rfl, rfl, by decide, by decide⟩
  have hok0 : faceOk cfgW := fun hpos => absurd hpos (by decide)
  exact ⟨(write_file_record_order cfgFace hok).1,
    (write_file_record_order cfgFace hok).2.2 (by decide),
    (write_file_record_order cfgW hok0).2.1 rfl⟩

/-- C4: in the per-layer serializer applied to every 3-D deck array, a layer
whose values are all identical is emitted as a single constant-mode control
line carrying the shared value and no data lines, while a layer containing
two distinct values is emitted as a read-array control line followed by a
non-empty block of row-major data lines; and each 3-D entry is exactly the
per-layer serialization of its layers in order. -/
theorem serializeLayer_constant_vs_full (α : Type) [inst : DecidableEq α]
    (fmtC fmtD : α → String) (cpl : Nat) (name : String)
    (layer : List (List α)) (v : α) :
    (layer.flatten ≠ [] → (∀ x ∈ layer.flatten, x = v) →
      serializeLayer fmtC fmtD cpl name layer =
        ["CONSTANT " ++ fmtC v ++ "   #" ++ name]) ∧
    (∀ x y, x ∈ layer.flatten → y ∈ layer.flatten → x ≠ y →
      serializeLayer fmtC fmtD cpl name layer =
        ("READARRAY INTERNAL   #" ++ name) ::
          (chunksOf cpl layer.flatten).map
            (fun c => String.join (c.map fmtD)) ∧
      (chunksOf cpl layer.flatten).map
          (fun c => String.join (c.map fmtD)) ≠ []) ∧
    (∀ arr : List (List (List α)),
      u3dEntry fmtC fmtD cpl name arr =
        arr.flatMap (serializeLayer fmtC fmtD cpl name)) := by
  refine ⟨?_, ?_, fun arr => rfl⟩
  · intro hne hall
    simp [serializeLayer, layerConstVal_all_eq layer v hne hall]
  · intro x y hx hy hxy
    have hc := layerConstVal_two_ne layer x y hx hy hxy
    refine ⟨by simp [serializeLayer, hc], ?_⟩
    have hne : layer.flatten ≠ [] := by
      intro h0
      exact absurd (h0 ▸ hx) (List.not_mem_nil x)
    intro hmapnil
    exact chunksOf_ne_nil cpl _ hne (List.map_eq_nil_iff.mp hmapnil)

theorem serializeLayer_constant_vs_full_witness :
    serializeLayer toString (fun u => pyIntFmt u 10) 20 "ibound"
        ([[1, 1], [1]] : List (List Int)) =
      ["CONSTANT " ++ toString (1 : Int) ++ "   #" ++ "ibound"] ∧
    serializeLayer toString (fun u => pyIntFmt u 10) 20 "ibound"
        ([[1], [2]] : List (List Int)) =
      ("READARRAY INTERNAL   #" ++ "ibound") ::
        (chunksOf 20 ([[1], [2]] : List (List Int)).flatten).map
          (fun c => String.join (c.map (fun u => pyIntFmt u 10))) :=
  ⟨(serializeLayer_constant_vs_full Int toString (fun u => pyIntFmt u 10)
      20 "ibound" [[1, 1], [1]] 1).1 (by decide) (by decide),
   ((serializeLayer_constant_vs_full Int toString (fun u => pyIntFmt u 10)
      20 "ibound" [[1], [2]] 1).2.1 1 2 (by decide) (by decide)
      (by decide)).1⟩

/-- C5: the fixed-width formats of the emitted records: the sentinel line
holds hnoflo and hdry right-justified in 16-character fields with 6 decimal
places separated by one space; the count is an integer in a 4-character
field; each face-default block is a 20-character left-justified label and a
width-2 iface integer; the layer-type data is written at integer width 2,
40 values per line. -/
theorem write_file_fixed_width_formats (cfg : BasConfig) (h : faceOk cfg) :
    (∃ rest, write_file cfg = Except.ok
      (("#" ++ heading1) :: ("#" ++ heading2) ::
       (pyFloatFmt cfg.hnoflo 16 6 ++ " " ++ pyFloatFmt cfg.hdry 16 6) ::
       pyIntFmt cfg.def_face_ct 4 :: rest)) ∧
    (∀ q : ℚ, pyFloatFmt q 16 6 = padLeftW 16 (decFixed q 6) ∧
      16 ≤ (pyFloatFmt q 16 6).length ∧
      ∃ ip ds, decFixed q 6 = ip ++ "." ++ String.mk ds ∧ ds.length = 6 ∧
        ∀ c ∈ ds, c.isDigit = true) ∧
    (∀ (n : Int) (w : Nat), pyIntFmt n w = padLeftW w (toString n) ∧
      w ≤ (pyIntFmt n w).length) ∧
    (∀ (s : String) (w : Nat), pyStrFmt s w =
        s ++ String.mk (List.replicate (w - s.length) ' ') ∧
      w ≤ (pyStrFmt s w).length) ∧
    (∀ ls fs, cfg.bud_label = some ls → cfg.def_iface = some fs →
      0 < cfg.def_face_ct →
      specFaceBlock cfg = (List.range cfg.def_face_ct.toNat).flatMap
        (fun i => [pyStrFmt (ls.getD i "") 20, pyIntFmt (fs.getD i 0) 2])) ∧
    (specLaytypBlock cfg = util2dControlLine "bas - laytype" 2 40 ::
        (chunksOf 40 cfg.laytyp).map
          (fun c => String.join (c.map (fun v => pyIntFmt v 2))) ∧
      ∀ c ∈ chunksOf 40 cfg.laytyp, c.length ≤ 40) := by
  refine ⟨?_, ?_, ?_, ?_, ?_, rfl, ?_⟩
  · refine ⟨specFaceBlock cfg ++ specLaytypBlock cfg ++
      u3dIntEntry "ibound" cfg.ibound ++ u3dRealEntry "prsity" cfg.prsity ++
      u3dRealEntry "prsityCB" cfg.prsityCB, ?_⟩
    rw [write_file_eq_specDeck cfg h]
    simp [specDeck, specHeadingLines, specSentinelLine, specCountLine]
  · intro q
    refine ⟨rfl, ?_, decFixed_decimals q 6⟩
    rw [pyFloatFmt, padLeftW_length]
    exact Nat.le_max_left _ _
  · intro n w
    refine ⟨rfl, ?_⟩
    rw [pyIntFmt, padLeftW_length]
    exact Nat.le_max_left _ _
  · intro s w
    refine ⟨rfl, ?_⟩
    rw [pyStrFmt, padRightW_length]
    exact Nat.le_max_left _ _
  · intro ls fs hls hfs hpos
    simp [specFaceBlock, if_pos hpos, hls, hfs]
  · exact chunksOf_length_le 40 (by omega) cfg.laytyp

theorem write_file_fixed_width_formats_witness :
    (∃ rest, write_file cfgFace = Except.ok
      (("#" ++ heading1) :: ("#" ++ heading2) ::
       (pyFloatFmt cfgFace.hnoflo 16 6 ++ " " ++
        pyFloatFmt cfgFace.hdry 16 6) ::
       pyIntFmt cfgFace.def_face_ct 4 :: rest)) ∧
    specFaceBlock cfgFace = (List.range (2 : Int).toNat).flatMap
      (fun i => [pyStrFmt ((["RECHARGE", "WELLS"] : List String).getD i "") 20,
                 pyIntFmt (([6, 6] : List Int).getD i 0) 2]) := by
  have hok : faceOk cfgFace := fun _ =>
    ⟨["RECHARGE", "WELLS"], [6, 6], rfl, rfl, by decide, by decide⟩
  exact ⟨(write_file_fixed_width_formats cfgFace hok).1,
    (write_file_fixed_width_formats cfgFace hok).2.2.2.2.1
      ["RECHARGE", "WELLS"] [6, 6] rfl rfl (by decide)⟩

/-- C9 counterexample: for the reachable configuration `cfgFail`
(`def_face_ct = 1` with the constructor-default `bud_label = None`) the
`write_file` run opens the output handle, then raises while formatting the
face-default block, and the handle is never closed — `open` without `close`
in plain sequence, no try/finally — so the handle is not released on every
exit path. -/
theorem write_file_close_counterexample :
    (writeFileRun cfgFail).2 = false ∧
    FEvent.openF ∈ (writeFileRun cfgFail).1 ∧
    FEvent.closeF ∉ (writeFileRun cfgFail).1 := by
  refine ⟨rfl, ?_, ?_⟩ <;> decide

/-- C9 (amended): the output handle is closed on the normal exit path — a
successful run's event trace ends with the close event — but when a failure
is raised partway through the face-default block the run stops with the
handle still open: the failing trace contains the open event and no close
event. -/
theorem write_file_close_on_success_only (cfg : BasConfig) :
    FEvent.openF ∈ (writeFileRun cfg).1 ∧
    ((writeFileRun cfg).2 = true →
      ((writeFileRun cfg).1).getLast? = some FEvent.closeF) ∧
    ((writeFileRun cfg).2 = false →
      FEvent.closeF ∉ (writeFileRun cfg).1) := by
  have htail : ∀ (w1 w2 w3 w4 : List String),
      ([FEvent.writeF w1, FEvent.writeF w2, FEvent.writeF w3,
        FEvent.writeF w4, FEvent.closeF] : List FEvent).getLast? =
        some FEvent.closeF := fun _ _ _ _ => rfl
  by_cases hct : cfg.def_face_ct > 0
  · rcases hfe : faceEventsGo cfg.bud_label cfg.def_iface 0
      cfg.def_face_ct.toNat with ⟨evs, ok⟩
    have hco : FEvent.closeF ∉ evs := by
      have hn := faceEventsGo_no_close cfg.bud_label cfg.def_iface
        cfg.def_face_ct.toNat 0
      rw [hfe] at hn
      exact hn
    cases ok with
    | true =>
      refine ⟨?_, ?_, ?_⟩
      · simp [writeFileRun, hct, hfe]
      · intro _
        simp [writeFileRun, hct, hfe, htail, List.getLast?_cons,
          List.getLast?_append]
      · intro habs
        simp [writeFileRun, hct, hfe] at habs
    | false =>
      refine ⟨?_, ?_, ?_⟩
      · simp [writeFileRun, hct, hfe]
      · intro habs
        simp [writeFileRun, hct, hfe] at habs
      · intro _
        simp [writeFileRun, hct, hfe, hco]
  · refine ⟨?_, ?_, ?_⟩
    · simp [writeFileRun, hct]
    · intro _
      simp [writeFileRun, hct, htail]
    · intro habs
      simp [writeFileRun, hct] at habs

theorem write_file_close_on_success_only_witness :
    ((writeFileRun cfgW).1).getLast? = some FEvent.closeF ∧
    FEvent.closeF ∉ (writeFileRun cfgFail).1 :=
  ⟨(write_file_close_on_success_only cfgW).2.1 rfl,
   (write_file_close_on_success_only cfgFail).2.2 rfl⟩

end Mp6Bas
